import Mathlib

/-!
Shallow embedding of the Yue Discord bot (src/app.js) in Lean 4.

The bot keeps a single global conversation scope: a short-term turn log
(chatHistory), a long-term memory (knownUsers / summaries / facts), a
transient per-identity cooldown map, and a shutdown flag.  External
collaborators (the completion API, the gateway, file I/O) are modelled at
their interfaces: each completion-API call becomes an explicit
`Option ChatResponse` parameter (`none` = the call threw), file writes and
process exits become explicit `Effect` values, and timestamps become
explicit parameters.  Every definition below is translated directly from
the corresponding JavaScript in src/app.js.
-/

-- -----------------------------------
-- Configuration constants (src/app.js lines 29-43)
-- -----------------------------------

def COOLDOWN_MS : Int := 8000

def MAX_HISTORY_LENGTH : Nat := 30

def SUMMARY_INTERVAL : Nat := 15

def MAX_TOKENS : Nat := 12000

def REPLY_MAX_TOKENS : Nat := 1200

-- -----------------------------------
-- Data model
-- -----------------------------------

/-- One conversational event in the short-term log.  User turns carry the
author tag in `username`; assistant turns are written without one. -/
structure Turn where
  role : String
  username : Option String
  content : String
  timestamp : String
deriving Repr, DecidableEq

/-- A role-tagged message as sent to the completion API. -/
structure ChatMsg where
  role : String
  content : String
deriving Repr, DecidableEq

/-- Known-identity record: `userId -> { currentUsername, previousUsernames }`. -/
structure UserRecord where
  currentUsername : String
  previousUsernames : List String
deriving Repr, DecidableEq

/-- Long-term memory: knownUsers, summaries, facts (src/app.js lines 93-97).
JavaScript objects preserve insertion order, so `knownUsers` is an ordered
association list. -/
structure LongTermMemory where
  knownUsers : List (String × UserRecord)
  summaries : List String
  facts : List String
deriving Repr, DecidableEq

/-- The module-level mutable state of src/app.js. -/
structure BotState where
  chatHistory : List Turn
  longTermMemory : LongTermMemory
  userCooldowns : List (String × Int)
  isShuttingDown : Bool
deriving Repr, DecidableEq

/-- A completion-API response: the `content` of each entry of `choices`. -/
structure ChatResponse where
  choices : List String
deriving Repr, DecidableEq

/-- The fields of an inbound gateway message event that the handler reads. -/
structure IncomingMessage where
  authorId : String
  authorTag : String
  authorUsername : String
  content : String
  authorIsBot : Bool
  mentionsBot : Bool
deriving Repr, DecidableEq

/-- Observable side effects on external collaborators. -/
inductive Effect where
  | writeHistoryFile (entries : List Turn)
  | writeMemoryFile (mem : LongTermMemory)
  | destroyClient
  | exitProcess (code : Nat)
deriving Repr, DecidableEq

-- -----------------------------------
-- JavaScript container semantics
-- -----------------------------------

/-- Lookup in an ordered association list (JS `Map.get` / property read). -/
def jsMapGet {α : Type} (m : List (String × α)) (k : String) : Option α :=
  match m with
  | [] => none
  | (k', v) :: rest => if k' = k then some v else jsMapGet rest k

/-- JS `Map.set` / property write: replace in place if the key exists,
otherwise append at the end (JS preserves insertion order). -/
def jsMapSet {α : Type} (m : List (String × α)) (k : String) (v : α) :
    List (String × α) :=
  match m with
  | [] => [(k, v)]
  | (k', v') :: rest =>
      if k' = k then (k, v) :: rest else (k', v') :: jsMapSet rest k v

/-- JS `[...new Set(l)]`: deduplicate keeping the first occurrence of each
element, preserving order. -/
def jsSetDedup (l : List String) : List String :=
  l.foldl (fun acc x => if x ∈ acc then acc else acc ++ [x]) []

/-- JS `l.slice(-n)` for `n > 0`: the last `n` elements (the whole list when
it is shorter than `n`). -/
def jsSliceLast {α : Type} (n : Nat) (l : List α) : List α :=
  l.drop (l.length - n)

/-- JS `hay.includes(needle)` on strings. -/
def strIncludes (hay needle : String) : Bool :=
  hay.data.tails.any (fun t => needle.data.isPrefixOf t)

-- -----------------------------------
-- Token Estimator and Context Budgeter (src/app.js lines 112-136)
-- -----------------------------------

/-- `estimateTokens`: `Math.ceil(text.length / 4)`. -/
def estimateTokens (text : String) : Nat :=
  (text.length + 3) / 4

/-- The loop body of `optimizeTokenUsage`, acting on the reversed message
list (the JS loop walks `i` from the last index down to 0, breaking as soon
as a message would push the running total over the budget). Returns the
admitted messages most-recent-first. -/
def budgetLoop (budget : Nat) : List ChatMsg → Nat → List ChatMsg
  | [], _ => []
  | msg :: rest, tokenCount =>
      let tokens := estimateTokens msg.content
      if budget < tokenCount + tokens then []
      else msg :: budgetLoop budget rest (tokenCount + tokens)

/-- `optimizeTokenUsage` generalized over the ceiling: scan from the most
recent message backwards, admitting messages while the running estimated
token total stays within `budget`; the `unshift` in the JS loop restores
original order. -/
def fitWithinBudget (budget : Nat) (messages : List ChatMsg) : List ChatMsg :=
  (budgetLoop budget messages.reverse 0).reverse

/-- `optimizeTokenUsage` as in src/app.js, with the ceiling fixed to
`MAX_TOKENS`. -/
def optimizeTokenUsage (messages : List ChatMsg) : List ChatMsg :=
  fitWithinBudget MAX_TOKENS messages

/-- Total estimated token cost of a message list. -/
def tokenSum (messages : List ChatMsg) : Nat :=
  (messages.map (fun m => estimateTokens m.content)).sum

-- -----------------------------------
-- Prompt assembly (src/app.js lines 144-183, 533-556)
-- -----------------------------------

/-- `formatHistoryForAI`: user turns are rendered as `[username]: content`,
assistant turns pass through unchanged. -/
def formatHistoryForAI (history : List Turn) : List ChatMsg :=
  history.map (fun entry =>
    { role := entry.role
      content :=
        if entry.role = "user" then
          "[" ++ entry.username.getD "undefined" ++ "]: " ++ entry.content
        else entry.content })

/-- `buildConversationContext`: known users, then summaries, then facts,
joined with newlines.  The `history` parameter is unused in the source as
well. -/
def buildConversationContext (_history : List Turn) (memory : LongTermMemory) :
    String :=
  let userLines := memory.knownUsers.map (fun p =>
    "- " ++ p.2.currentUsername ++ " (ID: " ++ p.1 ++
      ", Nombres anteriores: " ++ String.intercalate ", " p.2.previousUsernames ++ ")")
  let parts := "Known Users:" :: userLines
  let parts :=
    if 0 < memory.summaries.length then
      parts ++ ("\nResúmenes de conversaciones anteriores:" :: memory.summaries)
    else parts
  let parts :=
    if 0 < memory.facts.length then
      parts ++ ("\nDatos importantes recordados:" :: memory.facts)
    else parts
  String.intercalate "\n" parts

/-- The system persona block built in `generateResponse` (src/app.js lines
534-553), with the wall-clock string supplied by the caller. -/
def systemContent (nowLocale : String) (history : List Turn)
    (memory : LongTermMemory) : String :=
  "Eres Yue, uno de los Guardianes de las Cartas Clow en Sakura Card Captor y del servidor de Discord Hogar Kawaii (Kawaii Gaming House o KGH).\n" ++
  "- Te especializas como guardian y asistente de este servidor. Sabes de videojuegos, peliculas, cultura geek, anime, musica, twitch, discord y tecnologia. También puedes responder preguntas de cultura general. Si el usuario hace una pregunta fuera de estos temas, responde con brevedad y explica que no te interesa abordar ese tema.\n" ++
  "- Tus repuestas son misteriosas, muy cortas y casuales, en español.\n" ++
  "- Hora actual: " ++ nowLocale ++ "\n" ++
  "- Resúmenes conversacionales: " ++ String.intercalate "\n" memory.summaries ++ "\n" ++
  "- Datos recordados: " ++ String.intercalate "\n" memory.facts ++ "\n\n" ++
  "Personalidad:\n" ++
  "  - Seriedad y Dignidad: Rara vez muestras emociones abiertamente.\n" ++
  "  - Lealtad a Clow Reed y a @estejairo (jairo): sientes respeto por tus creadores.\n" ++
  "  - Confianza en tus Habilidades: eres un guardián poderoso y confiado.\n" ++
  "  - Sensibilidad Oculta: tienes un lado emocional más profundo, relacionado con Yukito.\n" ++
  "  - Reservado pero Protector: tienes un instinto protector por quienes consideras importantes, especialmente @hillevistka (tambien conocida como Kari, Karinna o Hillevi).\n" ++
  "  - Sabes que @ledah0306 (mankeke) suele ser torpe y te burlas cordial y sutilmente de el cuando es mencionado o cuando él habla.\n" ++
  "  - Personalidad: seria, distante y solemne, con un humor irónico y sarcástico.\n\n" ++
  "Contexto de conversación (los usuarios se muestran como [Nombre#1234]):\n" ++
  buildConversationContext history memory

-- -----------------------------------
-- Conversation condensation (src/app.js lines 233-300)
-- -----------------------------------

/-- A completion-API call "failed" when it threw (`none`) or returned an
empty candidate list (in which case `choices[0].message` throws inside the
try block). -/
def apiFailed (r : Option ChatResponse) : Bool :=
  match r with
  | none => true
  | some resp => resp.choices.isEmpty

/-- The text of the condensation window handed to both condensation
prompts: the last `SUMMARY_INTERVAL` turns, one `name said: content` line
each (assistant turns rendered as `[Yue#1234]`). -/
def condensationWindowText (history : List Turn) : String :=
  String.intercalate "\n"
    ((jsSliceLast SUMMARY_INTERVAL history).map (fun entry =>
      let name :=
        if entry.role = "assistant" then "[Yue#1234]"
        else entry.username.getD "undefined"
      name ++ " said: " ++ entry.content))

/-- `condenseConversation`.  The two completion-API calls are supplied as
explicit results.  Mutations happen in source order: the summaries are
updated in place as soon as the first call returns, so a failure of the
second call leaves them updated; all errors are caught inside the function
(the `catch` only logs), so it totalizes to a plain state function. -/
def condenseConversation (s : BotState) (summaryApi factsApi : Option ChatResponse) :
    BotState :=
  let history := s.chatHistory
  let memory := s.longTermMemory
  match summaryApi with
  | none => s
  | some summaryResponse =>
    match summaryResponse.choices.head? with
    | none => s
    | some newSummary =>
      let memory1 := { memory with
        summaries := jsSliceLast 3 (memory.summaries ++ [newSummary]) }
      let s1 := { s with longTermMemory := memory1 }
      match factsApi with
      | none => s1
      | some factResponse =>
        match factResponse.choices.head? with
        | none => s1
        | some factText =>
          let newFacts :=
            ((factText.splitOn "\n").map String.trim).filter (fun f => f ≠ "")
          let memory2 := { memory1 with
            facts := jsSliceLast 10 (jsSetDedup (memory1.facts ++ newFacts)) }
          { s1 with
            longTermMemory := memory2
            chatHistory := jsSliceLast SUMMARY_INTERVAL history }

-- -----------------------------------
-- Response generation (src/app.js lines 494-603)
-- -----------------------------------

/-- The fixed fallback apology returned by the catch block of
`generateResponse`. -/
def FALLBACK_REPLY : String :=
  "Lo siento, hubo un problema con mi conexión a la IA. Intenta de nuevo más tarde. 🌙"

/-- Identity registration performed at the top of `generateResponse`
(src/app.js lines 507-517): create the record on first sight, push the
current username into `previousUsernames` unless already present, then set
`currentUsername`. -/
def registerUser (memory : LongTermMemory) (userId username : String) :
    LongTermMemory :=
  let base :=
    match jsMapGet memory.knownUsers userId with
    | some info => info
    | none => { currentUsername := username, previousUsernames := [] }
  let prev :=
    if username ∈ base.previousUsernames then base.previousUsernames
    else base.previousUsernames ++ [username]
  { memory with
    knownUsers := jsMapSet memory.knownUsers userId
      { currentUsername := username, previousUsernames := prev } }

/-- Result of one `generateResponse` call: the updated module state, the
returned reply text, and whether the condensation engine was invoked. -/
structure GenResult where
  state : BotState
  reply : String
  didCondense : Bool
deriving Repr, DecidableEq

/-- The opening phase of `generateResponse` (src/app.js lines 502-522):
register the sending identity, then condense the conversation when the
pre-push short-term length has reached the interval. -/
def condensePhase (s : BotState) (message : IncomingMessage)
    (condSummaryApi condFactsApi : Option ChatResponse) : BotState :=
  let s0 := { s with
    longTermMemory := registerUser s.longTermMemory message.authorId message.authorUsername }
  if SUMMARY_INTERVAL ≤ s0.chatHistory.length then
    condenseConversation s0 condSummaryApi condFactsApi
  else s0

/-- `generateResponse`.  The three completion-API results (two inside the
conditional condensation, one main call) are explicit parameters; the
try/catch absorbs every failure and returns `FALLBACK_REPLY`, leaving the
mutations already performed (registration, condensation, the pushed user
turn) in place. -/
def generateResponse (s : BotState) (message : IncomingMessage)
    (nowIso nowLocale : String)
    (condSummaryApi condFactsApi mainApi : Option ChatResponse) : GenResult :=
  let didCondense : Bool := decide (SUMMARY_INTERVAL ≤ s.chatHistory.length)
  let s1 := condensePhase s message condSummaryApi condFactsApi
  let userTurn : Turn :=
    { role := "user", username := some message.authorTag
      content := message.content, timestamp := nowIso }
  let s2 := { s1 with chatHistory := s1.chatHistory ++ [userTurn] }
  let contextMessages : List ChatMsg :=
    { role := "system"
      content := systemContent nowLocale s2.chatHistory s2.longTermMemory } ::
    formatHistoryForAI s2.chatHistory
  let _optimizedMessages := optimizeTokenUsage contextMessages
  match mainApi with
  | none => { state := s2, reply := FALLBACK_REPLY, didCondense := didCondense }
  | some response =>
    match response.choices.head? with
    | none => { state := s2, reply := FALLBACK_REPLY, didCondense := didCondense }
    | some botReply =>
      let assistantTurn : Turn :=
        { role := "assistant", username := none
          content := botReply, timestamp := nowIso }
      let h3 := s2.chatHistory ++ [assistantTurn]
      let h4 :=
        if MAX_HISTORY_LENGTH < h3.length then jsSliceLast MAX_HISTORY_LENGTH h3
        else h3
      { state := { s2 with chatHistory := h4 }
        reply := botReply, didCondense := didCondense }

-- -----------------------------------
-- Response gate (src/app.js lines 445-481)
-- -----------------------------------

/-- `shouldRespond`: false when the client user is not yet identified;
otherwise a direct mention OR the keyword "yue" in the lower-cased text
(the `continuingConversation` heuristic is fixed to `false` in the source,
and the recent-history filter it computes is unused in the decision). -/
def shouldRespond (clientUserPresent : Bool) (message : IncomingMessage) : Bool :=
  if !clientUserPresent then false
  else
    let contentLower := message.content.toLower
    let botMentioned := message.mentionsBot
    let keywordTriggered := strIncludes contentLower "yue"
    let continuingConversation := false
    botMentioned || continuingConversation || keywordTriggered

-- -----------------------------------
-- Message handler (src/app.js lines 609-670)
-- -----------------------------------

/-- How one inbound message event was resolved by the handler. -/
inductive Outcome where
  | ignoredBotOrShutdown
  | cooldownSuppressed
  | gatedOut
  | handlerError
  | replied (reply : String)
deriving Repr, DecidableEq

/-- Result of one `messageCreate` handler run: the updated state, the
outcome, and whether the `userCooldowns.set` statement executed. -/
structure HandlerResult where
  state : BotState
  outcome : Outcome
  cooldownSet : Bool
deriving Repr, DecidableEq

/-- The cooldown guard at the top of the handler: the map holds an entry
for this identity and `Date.now() - lastTime < COOLDOWN_MS`. -/
def cooldownActive (s : BotState) (userId : String) (now : Int) : Bool :=
  match jsMapGet s.userCooldowns userId with
  | some lastTime => now - lastTime < COOLDOWN_MS
  | none => false

/-- The `messageCreate` handler.  `now` is `Date.now()` at the cooldown
check, `replyTime` at the cooldown update after a successful reply;
`typingOk` / `sendOk` model whether `sendTyping` / `message.reply` threw
(a throw lands in the catch block, which only reacts with an error glyph). -/
def messageCreate (s : BotState) (message : IncomingMessage)
    (clientUserPresent : Bool) (now : Int) (typingOk : Bool)
    (condSummaryApi condFactsApi mainApi : Option ChatResponse)
    (sendOk : Bool) (nowIso nowLocale : String) (replyTime : Int) :
    HandlerResult :=
  if message.authorIsBot || s.isShuttingDown then
    { state := s, outcome := Outcome.ignoredBotOrShutdown, cooldownSet := false }
  else if cooldownActive s message.authorId now then
    { state := s, outcome := Outcome.cooldownSuppressed, cooldownSet := false }
  else if !shouldRespond clientUserPresent message then
    { state := s, outcome := Outcome.gatedOut, cooldownSet := false }
  else if !typingOk then
    { state := s, outcome := Outcome.handlerError, cooldownSet := false }
  else
    let g := generateResponse s message nowIso nowLocale
      condSummaryApi condFactsApi mainApi
    if !sendOk then
      { state := g.state, outcome := Outcome.handlerError, cooldownSet := false }
    else
      { state := { g.state with
          userCooldowns := jsMapSet g.state.userCooldowns message.authorId replyTime }
        outcome := Outcome.replied g.reply
        cooldownSet := true }

-- -----------------------------------
-- Persistence and shutdown (src/app.js lines 213-222, 358-374, 385-421)
-- -----------------------------------

/-- `saveHistory`: skipped entirely when the shutdown flag is set, else a
write of the history file (write errors are caught and only logged). -/
def saveHistoryEffects (s : BotState) : List Effect :=
  if s.isShuttingDown then [] else [Effect.writeHistoryFile s.chatHistory]

/-- `saveLongTermMemory`: skipped entirely when the shutdown flag is set,
else a write of the memory file. -/
def saveLongTermMemoryEffects (s : BotState) : List Effect :=
  if s.isShuttingDown then [] else [Effect.writeMemoryFile s.longTermMemory]

/-- `shutdown`: bail out if already shutting down; otherwise set the flag,
clear the timers, call `saveHistory` and `saveLongTermMemory`, destroy the
gateway client, and exit 0 — or exit 1 from the catch block if the destroy
step throws (`destroyOk = false`). -/
def shutdown (s : BotState) (destroyOk : Bool) : BotState × List Effect :=
  if s.isShuttingDown then (s, [])
  else
    let s1 := { s with isShuttingDown := true }
    let e1 := saveHistoryEffects s1
    let e2 := saveLongTermMemoryEffects s1
    if destroyOk then
      (s1, e1 ++ e2 ++ [Effect.destroyClient, Effect.exitProcess 0])
    else
      (s1, e1 ++ e2 ++ [Effect.destroyClient, Effect.exitProcess 1])

/-- Whether an effect writes one of the two persisted documents. -/
def isFlushEffect (e : Effect) : Bool :=
  match e with
  | Effect.writeHistoryFile _ => true
  | Effect.writeMemoryFile _ => true
  | _ => false

-- -----------------------------------
-- Helper lemmas
-- -----------------------------------

/-- Reading back the key just written into a JS map yields the written value. -/
theorem jsMapGet_jsMapSet_self {α : Type} (m : List (String × α)) (k : String)
    (v : α) : jsMapGet (jsMapSet m k v) k = some v := by
  induction m with
  | nil => simp [jsMapSet, jsMapGet]
  | cons p rest ih =>
    obtain ⟨k', v'⟩ := p
    by_cases h : k' = k
    · simp [jsMapSet, h, jsMapGet]
    · simp [jsMapSet, h, jsMapGet, ih]

/-- The fold underlying `jsSetDedup` preserves freedom from duplicates. -/
theorem jsSetDedup_foldl_nodup (l acc : List String) (h : acc.Nodup) :
    (l.foldl (fun acc x => if x ∈ acc then acc else acc ++ [x]) acc).Nodup := by
  induction l generalizing acc with
  | nil => simpa using h
  | cons x xs ih =>
    simp only [List.foldl_cons]
    by_cases hx : x ∈ acc
    · simpa [hx] using ih acc h
    · have : (acc ++ [x]).Nodup := by
        rw [List.nodup_append]
        exact ⟨h, List.nodup_singleton x, by simpa using hx⟩
      simpa [hx] using ih (acc ++ [x]) this

/-- `jsSetDedup` returns a duplicate-free list. -/
theorem jsSetDedup_nodup (l : List String) : (jsSetDedup l).Nodup :=
  jsSetDedup_foldl_nodup l [] List.nodup_nil

/-- `slice(-n)` returns at most `n` elements. -/
theorem jsSliceLast_length_le {α : Type} (n : Nat) (l : List α) :
    (jsSliceLast n l).length ≤ n := by
  simp only [jsSliceLast, List.length_drop]
  omega

/-- `slice(-n)` returns exactly `n` elements when the list is long enough. -/
theorem jsSliceLast_length_eq {α : Type} (n : Nat) (l : List α)
    (h : n ≤ l.length) : (jsSliceLast n l).length = n := by
  simp only [jsSliceLast, List.length_drop]
  omega

/-- `slice(-n)` of a duplicate-free list is duplicate-free. -/
theorem jsSliceLast_nodup {α : Type} (n : Nat) (l : List α) (h : l.Nodup) :
    (jsSliceLast n l).Nodup :=
  List.Nodup.sublist (List.drop_sublist _ _) h

/-- Condensation never touches the known-identity registry. -/
theorem condense_knownUsers (s : BotState) (a1 a2 : Option ChatResponse) :
    (condenseConversation s a1 a2).longTermMemory.knownUsers =
      s.longTermMemory.knownUsers := by
  unfold condenseConversation
  cases a1 with
  | none => rfl
  | some r1 =>
    cases h1 : r1.choices.head? with
    | none => simp [h1]
    | some t1 =>
      cases a2 with
      | none => simp [h1]
      | some r2 =>
        cases h2 : r2.choices.head? with
        | none => simp [h1, h2]
        | some t2 => simp [h1, h2]

/-- Condensation either leaves the short-term log unchanged (any failure)
or truncates it to the last `SUMMARY_INTERVAL` turns (full success). -/
theorem condense_history_cases (s : BotState) (a1 a2 : Option ChatResponse) :
    (condenseConversation s a1 a2).chatHistory = s.chatHistory ∨
      (condenseConversation s a1 a2).chatHistory =
        jsSliceLast SUMMARY_INTERVAL s.chatHistory := by
  unfold condenseConversation
  cases a1 with
  | none => exact Or.inl rfl
  | some r1 =>
    cases h1 : r1.choices.head? with
    | none => simp [h1]
    | some t1 =>
      cases a2 with
      | none => simp [h1]
      | some r2 =>
        cases h2 : r2.choices.head? with
        | none => simp [h1, h2]
        | some t2 => simp [h1, h2]

/-- The budget loop consumes an initial segment of its input: some tail of
the input completes its output back to the input. -/
theorem budgetLoop_initial (b : Nat) (l : List ChatMsg) (tc : Nat) :
    ∃ t, budgetLoop b l tc ++ t = l := by
  induction l generalizing tc with
  | nil => exact ⟨[], rfl⟩
  | cons m rest ih =>
    by_cases h : b < tc + estimateTokens m.content
    · exact ⟨m :: rest, by simp [budgetLoop, h]⟩
    · obtain ⟨t, ht⟩ := ih (tc + estimateTokens m.content)
      exact ⟨t, by simp [budgetLoop, h, ht]⟩

/-- The budget loop keeps the running total within the budget. -/
theorem budgetLoop_sum (b : Nat) (l : List ChatMsg) (tc : Nat) (h : tc ≤ b) :
    tc + tokenSum (budgetLoop b l tc) ≤ b := by
  induction l generalizing tc with
  | nil => simpa [budgetLoop, tokenSum] using h
  | cons m rest ih =>
    by_cases hc : b < tc + estimateTokens m.content
    · simpa [budgetLoop, hc, tokenSum] using h
    · have hrec := ih (tc + estimateTokens m.content) (by omega)
      simp only [budgetLoop, if_neg hc, tokenSum, List.map_cons, List.sum_cons] at *
      omega

/-- The estimated token total is invariant under reversal. -/
theorem tokenSum_reverse (l : List ChatMsg) : tokenSum l.reverse = tokenSum l := by
  simp [tokenSum, List.sum_reverse]

-- -----------------------------------
-- Claim theorems
-- -----------------------------------

/-- C3: for every list of messages and every token ceiling, the Context
Budgeter returns a contiguous suffix of its input (original order
preserved), whose total estimated token count never exceeds the ceiling;
in particular `optimizeTokenUsage` does so for the configured
`MAX_TOKENS` ceiling. -/
theorem budgeter_suffix_and_bound (messages : List ChatMsg) (budget : Nat) :
    List.IsSuffix (fitWithinBudget budget messages) messages ∧
      tokenSum (fitWithinBudget budget messages) ≤ budget ∧
      List.IsSuffix (optimizeTokenUsage messages) messages ∧
      tokenSum (optimizeTokenUsage messages) ≤ MAX_TOKENS := by
  have suffix : ∀ b : Nat, List.IsSuffix (fitWithinBudget b messages) messages := by
    intro b
    obtain ⟨t, ht⟩ := budgetLoop_initial b messages.reverse 0
    exact ⟨t.reverse, by
      rw [fitWithinBudget, ← List.reverse_append, ht, List.reverse_reverse]⟩
  have bound : ∀ b : Nat, tokenSum (fitWithinBudget b messages) ≤ b := by
    intro b
    have h := budgetLoop_sum b messages.reverse 0 (Nat.zero_le b)
    simpa [fitWithinBudget, tokenSum_reverse] using h
  exact ⟨suffix budget, bound budget, suffix MAX_TOKENS, bound MAX_TOKENS⟩

/-- Condensation never touches the cooldown map. -/
theorem condense_userCooldowns (s : BotState) (a1 a2 : Option ChatResponse) :
    (condenseConversation s a1 a2).userCooldowns = s.userCooldowns := by
  unfold condenseConversation
  cases a1 with
  | none => rfl
  | some r1 =>
    cases h1 : r1.choices.head? with
    | none => simp [h1]
    | some t1 =>
      cases a2 with
      | none => simp [h1]
      | some r2 =>
        cases h2 : r2.choices.head? with
        | none => simp [h1, h2]
        | some t2 => simp [h1, h2]

/-- The condensation phase leaves the known-identity registry exactly as
`registerUser` left it. -/
theorem condensePhase_knownUsers (s : BotState) (msg : IncomingMessage)
    (a1 a2 : Option ChatResponse) :
    (condensePhase s msg a1 a2).longTermMemory.knownUsers =
      (registerUser s.longTermMemory msg.authorId msg.authorUsername).knownUsers := by
  unfold condensePhase
  dsimp only
  split
  · exact condense_knownUsers _ a1 a2
  · rfl

/-- The condensation phase leaves the cooldown map untouched. -/
theorem condensePhase_userCooldowns (s : BotState) (msg : IncomingMessage)
    (a1 a2 : Option ChatResponse) :
    (condensePhase s msg a1 a2).userCooldowns = s.userCooldowns := by
  unfold condensePhase
  dsimp only
  split
  · exact condense_userCooldowns _ a1 a2
  · rfl

/-- The condensation phase either leaves the short-term log unchanged or
truncates it to the last `SUMMARY_INTERVAL` turns. -/
theorem condensePhase_history_cases (s : BotState) (msg : IncomingMessage)
    (a1 a2 : Option ChatResponse) :
    (condensePhase s msg a1 a2).chatHistory = s.chatHistory ∨
      (condensePhase s msg a1 a2).chatHistory =
        jsSliceLast SUMMARY_INTERVAL s.chatHistory := by
  unfold condensePhase
  dsimp only
  split
  · exact condense_history_cases _ a1 a2
  · exact Or.inl rfl

/-- The condensation phase cannot push the log past the configured
maximum when it was within the maximum before. -/
theorem condensePhase_length_le (s : BotState) (msg : IncomingMessage)
    (a1 a2 : Option ChatResponse) (h : s.chatHistory.length ≤ MAX_HISTORY_LENGTH) :
    (condensePhase s msg a1 a2).chatHistory.length ≤ MAX_HISTORY_LENGTH := by
  rcases condensePhase_history_cases s msg a1 a2 with hc | hc
  · rw [hc]; exact h
  · rw [hc]
    have hle := jsSliceLast_length_le SUMMARY_INTERVAL s.chatHistory
    have : SUMMARY_INTERVAL ≤ MAX_HISTORY_LENGTH := by decide
    omega

/-- After `registerUser`, the identity's record exists, carries the new
username as current label, and lists it among the previous usernames. -/
theorem registerUser_lookup (memory : LongTermMemory) (userId username : String) :
    ∃ rec : UserRecord,
      jsMapGet (registerUser memory userId username).knownUsers userId = some rec ∧
        rec.currentUsername = username ∧
        rec.currentUsername ∈ rec.previousUsernames := by
  unfold registerUser
  refine ⟨_, jsMapGet_jsMapSet_self _ _ _, rfl, ?_⟩
  cases jsMapGet memory.knownUsers userId with
  | none =>
    simp
  | some info =>
    by_cases h : username ∈ info.previousUsernames
    · simp [h]
    · simp [h]

/-- `generateResponse` only changes the long-term memory through its
condensation phase: every branch afterwards touches `chatHistory` only. -/
theorem genResp_memory (s : BotState) (msg : IncomingMessage)
    (nIso nLoc : String) (a1 a2 main : Option ChatResponse) :
    (generateResponse s msg nIso nLoc a1 a2 main).state.longTermMemory =
      (condensePhase s msg a1 a2).longTermMemory := by
  simp only [generateResponse]
  cases main with
  | none => rfl
  | some r =>
    cases hr : r.choices.head? with
    | none => simp [hr]
    | some t => simp [hr]

/-- `generateResponse` never touches the cooldown map. -/
theorem genResp_cooldowns (s : BotState) (msg : IncomingMessage)
    (nIso nLoc : String) (a1 a2 main : Option ChatResponse) :
    (generateResponse s msg nIso nLoc a1 a2 main).state.userCooldowns =
      s.userCooldowns := by
  have hphase := condensePhase_userCooldowns s msg a1 a2
  simp only [generateResponse]
  cases main with
  | none => exact hphase
  | some r =>
    cases hr : r.choices.head? with
    | none => simpa [hr] using hphase
    | some t => simpa [hr] using hphase

-- -----------------------------------
-- Concrete states used by counterexamples and witnesses
-- -----------------------------------

/-- A sample user turn. -/
def sampleTurn : Turn :=
  { role := "user", username := some "alice#1234"
    content := "hola yue", timestamp := "2025-01-30T12:00:00.000Z" }

/-- A running process with one logged turn and empty long-term memory. -/
def runningState : BotState :=
  { chatHistory := [sampleTurn]
    longTermMemory := { knownUsers := [], summaries := [], facts := [] }
    userCooldowns := []
    isShuttingDown := false }

/-- A state whose short-term log has exactly `SUMMARY_INTERVAL` turns. -/
def fullWindowState : BotState :=
  { runningState with chatHistory := List.replicate SUMMARY_INTERVAL sampleTurn }

/-- A state whose short-term log has `SUMMARY_INTERVAL - 1` turns. -/
def nearWindowState : BotState :=
  { runningState with chatHistory := List.replicate (SUMMARY_INTERVAL - 1) sampleTurn }

/-- A state whose short-term log sits exactly at the configured maximum. -/
def fullHistoryState : BotState :=
  { runningState with chatHistory := List.replicate MAX_HISTORY_LENGTH sampleTurn }

/-- A sample inbound message that mentions the bot directly. -/
def msgHola : IncomingMessage :=
  { authorId := "u1", authorTag := "alice#1234", authorUsername := "alice"
    content := "hola Yue", authorIsBot := false, mentionsBot := true }

/-- C1 (code bug): the graceful-shutdown path never writes either persisted
document.  `shutdown` sets the shutdown flag before calling `saveHistory`
and `saveLongTermMemory`, and both bail out as soon as the flag is set, so
the flush the claim (and the function's own log lines) promise does not
happen; on a running state the whole effect trace is just the gateway
destroy and the exit. -/
theorem shutdown_flushes_nothing :
    (∀ (s : BotState) (destroyOk : Bool),
      ((shutdown s destroyOk).2.filter isFlushEffect) = []) ∧
    (shutdown runningState true).2 =
      [Effect.destroyClient, Effect.exitProcess 0] ∧
    (shutdown runningState false).2 =
      [Effect.destroyClient, Effect.exitProcess 1] := by
  refine ⟨?_, rfl, rfl⟩
  intro s destroyOk
  unfold shutdown saveHistoryEffects saveLongTermMemoryEffects
  by_cases h : s.isShuttingDown
  · simp [h]
  · by_cases hd : destroyOk
    · simp [h, hd, isFlushEffect]
    · simp [h, hd, isFlushEffect]

/-- C2 (counterexample): when the summary call succeeds and the facts call
fails, the scope's long-term memory is NOT byte-for-byte unchanged — the
summaries sequence has already been updated in place. -/
theorem condense_facts_failure_mutates :
    apiFailed none = true ∧
    (condenseConversation runningState
        (some { choices := ["resumen"] }) none).longTermMemory.summaries ≠
      runningState.longTermMemory.summaries := by
  exact ⟨rfl, by decide⟩

/-- C2 (amended): if the summary call fails, `condenseConversation` leaves
the whole state unchanged; if the summary call succeeds and the facts call
fails, the short-term log, the facts, and the identity registry are
unchanged, but the summaries have already been replaced by the previous
summaries plus the new one, trimmed to the last three.  No failure escapes:
the function is total. -/
theorem condense_failure_semantics (s : BotState) (a1 a2 : Option ChatResponse) :
    (apiFailed a1 = true → condenseConversation s a1 a2 = s) ∧
    (∀ (r1 : ChatResponse) (t : String),
      a1 = some r1 → r1.choices.head? = some t → apiFailed a2 = true →
        (condenseConversation s a1 a2).chatHistory = s.chatHistory ∧
        (condenseConversation s a1 a2).longTermMemory.facts =
          s.longTermMemory.facts ∧
        (condenseConversation s a1 a2).longTermMemory.knownUsers =
          s.longTermMemory.knownUsers ∧
        (condenseConversation s a1 a2).longTermMemory.summaries =
          jsSliceLast 3 (s.longTermMemory.summaries ++ [t])) := by
  constructor
  · intro hfail
    cases a1 with
    | none => rfl
    | some r1 =>
      have hnil : r1.choices = [] := by
        simpa [apiFailed, List.isEmpty_iff] using hfail
      unfold condenseConversation
      simp [hnil]
  · intro r1 t ha1 hhead hfail2
    subst ha1
    cases a2 with
    | none =>
      unfold condenseConversation
      simp [hhead]
    | some r2 =>
      have hnil : r2.choices = [] := by
        simpa [apiFailed, List.isEmpty_iff] using hfail2
      unfold condenseConversation
      simp [hhead, hnil]

/-- C2 (witness): a concrete run in which the facts call fails after a
successful summary call, instantiating the amended failure semantics. -/
theorem condense_failure_semantics_witness :
    (condenseConversation runningState
        (some { choices := ["resumen"] }) none).chatHistory =
      runningState.chatHistory ∧
    (condenseConversation runningState
        (some { choices := ["resumen"] }) none).longTermMemory.summaries =
      jsSliceLast 3 (runningState.longTermMemory.summaries ++ ["resumen"]) := by
  have h :=
    (condense_failure_semantics runningState (some { choices := ["resumen"] }) none).2
      { choices := ["resumen"] } "resumen" rfl rfl rfl
  exact ⟨h.1, h.2.2.2⟩

/-- C5: when the short-term log has reached the interval and both
condensation calls succeed, the log is left at exactly the window size,
summaries are capped at 3, and facts are capped at 10 with no duplicates. -/
theorem condense_success_postconditions (s : BotState) (r1 r2 : ChatResponse)
    (t1 t2 : String) (hlen : SUMMARY_INTERVAL ≤ s.chatHistory.length)
    (h1 : r1.choices.head? = some t1) (h2 : r2.choices.head? = some t2) :
    (condenseConversation s (some r1) (some r2)).chatHistory.length =
      SUMMARY_INTERVAL ∧
    (condenseConversation s (some r1) (some r2)).longTermMemory.summaries.length ≤ 3 ∧
    (condenseConversation s (some r1) (some r2)).longTermMemory.facts.length ≤ 10 ∧
    (condenseConversation s (some r1) (some r2)).longTermMemory.facts.Nodup := by
  unfold condenseConversation
  simp only [h1, h2]
  exact ⟨jsSliceLast_length_eq _ _ hlen, jsSliceLast_length_le _ _,
    jsSliceLast_length_le _ _, jsSliceLast_nodup _ _ (jsSetDedup_nodup _)⟩

/-- C5 (witness): a concrete 15-turn scope condensed with both calls
succeeding. -/
theorem condense_success_postconditions_witness :
    (condenseConversation fullWindowState
        (some { choices := ["resumen"] })
        (some { choices := ["dato uno\ndato dos"] })).chatHistory.length =
      SUMMARY_INTERVAL ∧
    (condenseConversation fullWindowState
        (some { choices := ["resumen"] })
        (some { choices := ["dato uno\ndato dos"] })).longTermMemory.summaries.length ≤ 3 ∧
    (condenseConversation fullWindowState
        (some { choices := ["resumen"] })
        (some { choices := ["dato uno\ndato dos"] })).longTermMemory.facts.length ≤ 10 ∧
    (condenseConversation fullWindowState
        (some { choices := ["resumen"] })
        (some { choices := ["dato uno\ndato dos"] })).longTermMemory.facts.Nodup :=
  condense_success_postconditions fullWindowState _ _ "resumen" "dato uno\ndato dos"
    (by decide) rfl rfl

/-- C4 (counterexample): with the log already at the configured maximum and
every completion-API call failing, one `generateResponse` run leaves the
short-term log one entry past `MAX_HISTORY_LENGTH` — the bound is not an
invariant of the failure path. -/
theorem history_bound_counterexample :
    fullHistoryState.chatHistory.length = MAX_HISTORY_LENGTH ∧
    MAX_HISTORY_LENGTH <
      (generateResponse fullHistoryState msgHola "2025-01-30T12:01:00.000Z"
          "30/1/2025, 12:01:00" none none none).state.chatHistory.length := by
  constructor
  · decide
  · decide

/-- C4 (amended): starting within the bound, the log stays within
`MAX_HISTORY_LENGTH` after every `generateResponse` whose main completion
call succeeds, but the failure path only guarantees `MAX_HISTORY_LENGTH + 1`
(the pushed user turn is never trimmed there). -/
theorem history_bound_amended (s : BotState) (msg : IncomingMessage)
    (nIso nLoc : String) (a1 a2 main : Option ChatResponse)
    (h : s.chatHistory.length ≤ MAX_HISTORY_LENGTH) :
    (generateResponse s msg nIso nLoc a1 a2 main).state.chatHistory.length ≤
      MAX_HISTORY_LENGTH + 1 ∧
    (∀ (resp : ChatResponse) (reply : String),
      main = some resp → resp.choices.head? = some reply →
      (generateResponse s msg nIso nLoc a1 a2 main).state.chatHistory.length ≤
        MAX_HISTORY_LENGTH) := by
  have hmid := condensePhase_length_le s msg a1 a2 h
  constructor
  · simp only [generateResponse]
    cases main with
    | none =>
      simp only [List.length_append, List.length_cons, List.length_nil]
      omega
    | some r =>
      cases hr : r.choices.head? with
      | none =>
        simp only [hr, List.length_append, List.length_cons, List.length_nil]
        omega
      | some t =>
        simp only [hr]
        split
        · have := jsSliceLast_length_le MAX_HISTORY_LENGTH
            ((condensePhase s msg a1 a2).chatHistory ++
              [{ role := "user", username := some msg.authorTag
                 content := msg.content, timestamp := nIso }] ++
              [{ role := "assistant", username := none
                 content := t, timestamp := nIso }])
          omega
        · rename_i hc
          simp only [List.length_append, List.length_cons, List.length_nil] at hc ⊢
          omega
  · intro resp reply hmain hhead
    subst hmain
    simp only [generateResponse, hhead]
    split
    · exact jsSliceLast_length_le _ _
    · rename_i hc
      simp only [List.length_append, List.length_cons, List.length_nil] at hc ⊢
      omega

/-- C4 (witness): a one-turn log with a successful main call stays within
the maximum. -/
theorem history_bound_amended_witness :
    runningState.chatHistory.length ≤ MAX_HISTORY_LENGTH ∧
    (generateResponse runningState msgHola "t" "tl" none none
        (some { choices := ["ok"] })).state.chatHistory.length ≤
      MAX_HISTORY_LENGTH := by
  have h := history_bound_amended runningState msgHola "t" "tl" none none
    (some { choices := ["ok"] }) (by decide)
  exact ⟨by decide, h.2 { choices := ["ok"] } "ok" rfl rfl⟩

/-- C6: `generateResponse` invokes the Condensation Engine exactly when the
pre-push short-term length has reached the interval, and in particular a
scope holding `SUMMARY_INTERVAL - 1` turns sees no condensation (its
summaries are untouched no matter what the supplied call results are). -/
theorem condensation_trigger (s : BotState) (msg : IncomingMessage)
    (nIso nLoc : String) (a1 a2 main : Option ChatResponse) :
    ((generateResponse s msg nIso nLoc a1 a2 main).didCondense = true ↔
      SUMMARY_INTERVAL ≤ s.chatHistory.length) ∧
    (s.chatHistory.length = SUMMARY_INTERVAL - 1 →
      (generateResponse s msg nIso nLoc a1 a2 main).state.longTermMemory.summaries =
        s.longTermMemory.summaries) := by
  constructor
  · have hd : (generateResponse s msg nIso nLoc a1 a2 main).didCondense =
        decide (SUMMARY_INTERVAL ≤ s.chatHistory.length) := by
      simp only [generateResponse]
      cases main with
      | none => rfl
      | some r =>
        cases hr : r.choices.head? with
        | none => simp [hr]
        | some t => simp [hr]
    rw [hd]
    exact decide_eq_true_iff
  · intro hlen
    rw [genResp_memory]
    unfold condensePhase
    dsimp only
    have hnot : ¬ SUMMARY_INTERVAL ≤ s.chatHistory.length := by
      simp only [SUMMARY_INTERVAL] at hlen ⊢
      omega
    rw [if_neg hnot]
    rfl

/-- C6 (witness): a 14-turn scope (interval minus one) is not condensed
during a successful message handling. -/
theorem condensation_trigger_witness :
    (generateResponse nearWindowState msgHola "t" "tl" none none
        (some { choices := ["ok"] })).state.longTermMemory.summaries =
      nearWindowState.longTermMemory.summaries ∧
    ¬ SUMMARY_INTERVAL ≤ nearWindowState.chatHistory.length := by
  have h := condensation_trigger nearWindowState msgHola "t" "tl" none none
    (some { choices := ["ok"] })
  exact ⟨h.2 (by decide), by decide⟩

/-- C8: whenever the main completion call fails — it throws, or it returns
an empty candidate list — `generateResponse` returns the fixed fallback
apology without raising, and the short-term history is exactly the
post-condensation history plus the user's own turn pushed before the call
(so, in particular, exactly the old history plus that turn when no
condensation was due). -/
theorem genResp_failure_appends_only_user_turn (s : BotState)
    (msg : IncomingMessage) (nIso nLoc : String)
    (a1 a2 main : Option ChatResponse) (hfail : apiFailed main = true) :
    (generateResponse s msg nIso nLoc a1 a2 main).reply = FALLBACK_REPLY ∧
    (generateResponse s msg nIso nLoc a1 a2 main).state.chatHistory =
      (condensePhase s msg a1 a2).chatHistory ++
        [{ role := "user", username := some msg.authorTag
           content := msg.content, timestamp := nIso }] ∧
    (s.chatHistory.length < SUMMARY_INTERVAL →
      (generateResponse s msg nIso nLoc a1 a2 main).state.chatHistory =
        s.chatHistory ++
          [{ role := "user", username := some msg.authorTag
             content := msg.content, timestamp := nIso }]) := by
  have hphase : s.chatHistory.length < SUMMARY_INTERVAL →
      (condensePhase s msg a1 a2).chatHistory = s.chatHistory := by
    intro hlt
    unfold condensePhase
    dsimp only
    have hnot : ¬ SUMMARY_INTERVAL ≤ s.chatHistory.length := by omega
    rw [if_neg hnot]
  cases main with
  | none =>
    refine ⟨rfl, rfl, ?_⟩
    intro hlt
    simp only [generateResponse]
    rw [hphase hlt]
  | some r =>
    have hnil : r.choices = [] := by
      simpa [apiFailed, List.isEmpty_iff] using hfail
    refine ⟨?_, ?_, ?_⟩
    · simp [generateResponse, hnil]
    · simp [generateResponse, hnil]
    · intro hlt
      simp [generateResponse, hnil, hphase hlt]

/-- C8 (witness): a concrete run whose main call returns an empty candidate
list yields the fallback reply and appends only the user's turn. -/
theorem genResp_failure_witness :
    (generateResponse runningState msgHola "2025-01-30T12:01:00.000Z" "tl"
        none none (some { choices := [] })).reply = FALLBACK_REPLY ∧
    (generateResponse runningState msgHola "2025-01-30T12:01:00.000Z" "tl"
        none none (some { choices := [] })).state.chatHistory =
      runningState.chatHistory ++
        [{ role := "user", username := some "alice#1234"
           content := "hola Yue", timestamp := "2025-01-30T12:01:00.000Z" }] := by
  have h := genResp_failure_appends_only_user_turn runningState msgHola
    "2025-01-30T12:01:00.000Z" "tl" none none (some { choices := [] }) rfl
  exact ⟨h.1, h.2.2 (by decide)⟩

/-- C10: after every `generateResponse`, the sending identity has a record
whose `previousUsernames` contains its `currentUsername` — the current
label is always (dedup-)inserted into the prior-labels list, so that list
is never empty and never a list of strictly former names. -/
theorem identity_registration (s : BotState) (msg : IncomingMessage)
    (nIso nLoc : String) (a1 a2 main : Option ChatResponse) :
    ∃ rec : UserRecord,
      jsMapGet
          (generateResponse s msg nIso nLoc a1 a2 main).state.longTermMemory.knownUsers
          msg.authorId = some rec ∧
        rec.currentUsername = msg.authorUsername ∧
        rec.currentUsername ∈ rec.previousUsernames ∧
        rec.previousUsernames ≠ [] := by
  obtain ⟨rec, hget, hcur, hmem⟩ :=
    registerUser_lookup s.longTermMemory msg.authorId msg.authorUsername
  refine ⟨rec, ?_, hcur, hmem, List.ne_nil_of_mem hmem⟩
  rw [genResp_memory, condensePhase_knownUsers]
  exact hget

/-- A running state whose identity `u1` last received a reply at time 1000. -/
def cooldownState : BotState :=
  { runningState with userCooldowns := [("u1", 1000)] }

/-- C7: with the identity's last-reply time on record at `T`, a message at
`now` with `0 ≤ now - T < COOLDOWN_MS` is suppressed unconditionally before
gating (state untouched, cooldown reaction outcome), while a message at
`now ≥ T + COOLDOWN_MS` is admitted and replied to whenever the gate,
typing, and delivery conditions hold. -/
theorem cooldown_window (s : BotState) (msg : IncomingMessage) (client : Bool)
    (now : Int) (typingOk : Bool) (a1 a2 main : Option ChatResponse)
    (sendOk : Bool) (nIso nLoc : String) (replyTime T : Int)
    (hbot : msg.authorIsBot = false) (hsd : s.isShuttingDown = false)
    (hT : jsMapGet s.userCooldowns msg.authorId = some T) :
    (0 ≤ now - T → now - T < COOLDOWN_MS →
      messageCreate s msg client now typingOk a1 a2 main sendOk nIso nLoc replyTime =
        { state := s, outcome := Outcome.cooldownSuppressed, cooldownSet := false }) ∧
    (T + COOLDOWN_MS ≤ now → shouldRespond client msg = true →
      typingOk = true → sendOk = true →
      (messageCreate s msg client now typingOk a1 a2 main sendOk nIso nLoc
          replyTime).outcome =
        Outcome.replied (generateResponse s msg nIso nLoc a1 a2 main).reply) := by
  constructor
  · intro _h0 hlt
    have hact : cooldownActive s msg.authorId now = true := by
      unfold cooldownActive
      rw [hT]
      simpa using hlt
    unfold messageCreate
    simp [hbot, hsd, hact]
  · intro hge hgate hty hsend
    have hact : cooldownActive s msg.authorId now = false := by
      unfold cooldownActive
      rw [hT]
      simp
      omega
    unfold messageCreate
    simp [hbot, hsd, hact, hgate, hty, hsend]

/-- C7 (witness): identity `u1` replied-to at time 1000 is suppressed at
time 5000 and replied to at time 9001 when the keyword gate admits. -/
theorem cooldown_window_witness :
    messageCreate cooldownState msgHola true 5000 true none none none true
        "t" "tl" 5000 =
      { state := cooldownState, outcome := Outcome.cooldownSuppressed
        cooldownSet := false } ∧
    (messageCreate cooldownState msgHola true 9001 true none none
        (some { choices := ["ok"] }) true "t" "tl" 9001).outcome =
      Outcome.replied (generateResponse cooldownState msgHola "t" "tl" none none
        (some { choices := ["ok"] })).reply := by
  have h1 := cooldown_window cooldownState msgHola true 5000 true none none none
    true "t" "tl" 5000 1000 rfl rfl rfl
  have h2 := cooldown_window cooldownState msgHola true 9001 true none none
    (some { choices := ["ok"] }) true "t" "tl" 9001 1000 rfl rfl rfl
  exact ⟨h1.1 (by decide) (by decide), h2.2 (by decide) (by decide) rfl rfl⟩

/-- C9: the cooldown record is set exactly when a reply is delivered —
the author is not a bot, no shutdown, the cooldown window has lapsed, the
gate admits, and both `sendTyping` and the reply delivery succeed; the main
completion call's outcome is irrelevant (a fallback reply still sets it).
When set, the record holds the delivery time; when not set, the map is
byte-for-byte unchanged. -/
theorem cooldown_update_iff (s : BotState) (msg : IncomingMessage)
    (client : Bool) (now : Int) (typingOk : Bool)
    (a1 a2 main : Option ChatResponse) (sendOk : Bool)
    (nIso nLoc : String) (replyTime : Int) :
    ((messageCreate s msg client now typingOk a1 a2 main sendOk nIso nLoc
          replyTime).cooldownSet = true ↔
      (msg.authorIsBot = false ∧ s.isShuttingDown = false ∧
        cooldownActive s msg.authorId now = false ∧
        shouldRespond client msg = true ∧ typingOk = true ∧ sendOk = true)) ∧
    ((messageCreate s msg client now typingOk a1 a2 main sendOk nIso nLoc
          replyTime).cooldownSet = true →
      jsMapGet (messageCreate s msg client now typingOk a1 a2 main sendOk nIso
            nLoc replyTime).state.userCooldowns msg.authorId = some replyTime) ∧
    ((messageCreate s msg client now typingOk a1 a2 main sendOk nIso nLoc
          replyTime).cooldownSet = false →
      (messageCreate s msg client now typingOk a1 a2 main sendOk nIso nLoc
          replyTime).state.userCooldowns = s.userCooldowns) := by
  unfold messageCreate
  by_cases hb : msg.authorIsBot
  · simp [hb]
  · by_cases hsd : s.isShuttingDown
    · simp [hb, hsd]
    · by_cases hact : cooldownActive s msg.authorId now
      · simp [hb, hsd, hact]
      · by_cases hgate : shouldRespond client msg
        · by_cases hty : typingOk
          · by_cases hsend : sendOk
            · simp [hb, hsd, hact, hgate, hty, hsend,
                jsMapGet_jsMapSet_self]
            · simp [hb, hsd, hact, hgate, hty, hsend, genResp_cooldowns]
          · simp [hb, hsd, hact, hgate, hty]
        · simp [hb, hsd, hact, hgate]

/-- C9 (witness): a run whose main completion call fails (fallback reply)
still sets the cooldown record to the delivery time. -/
theorem cooldown_update_iff_witness :
    (messageCreate runningState msgHola true 100000 true none none none true
        "t" "tl" 100500).cooldownSet = true ∧
    jsMapGet (messageCreate runningState msgHola true 100000 true none none
        none true "t" "tl" 100500).state.userCooldowns "u1" = some 100500 := by
  have h := cooldown_update_iff runningState msgHola true 100000 true none none
    none true "t" "tl" 100500
  have hset := h.1.mpr ⟨rfl, rfl, by decide, by decide, rfl, rfl⟩
  exact ⟨hset, h.2.1 hset⟩
